import Mathlib

/-
  Verification of the sandboxed expression evaluator in
  src/backend/engine.py (classes SafeEvaluator and CalculatorEngine).

  Modelling conventions:
  * Python numbers (int/float) are modelled as rationals (Q); integer and
    float results coincide on the exact arithmetic the claims exercise.
  * Transcendental float functions (math.sin, math.sqrt, ...) and the random
    number generator have no exact rational meaning; they are abstract
    parameters collected in the `FloatFns` structure.  The degree/radian
    wrapper is additionally verified over ℝ, where math.sin is Real.sin.
  * Python exceptions are the `PyExc` type; a function that can raise
    returns `Except PyExc PyVal`.
  * The host parser (Python's ast.parse) is not part of the repository;
    the tokenizer and parser below are modelled from the grammar in
    spec sections 4.1 and 4.2, including maximal-munch identifier lexing
    (so that, e.g., "0and1" lexes as the number 0 followed by the single
    identifier "and1", as CPython does).
-/

set_option maxRecDepth 20000

/-- Euclid with explicit fuel so that gcd reduces definitionally in the
kernel (the core Nat.gcd is compiled by well-founded recursion and does
not). -/
def natGcdF : Nat → Nat → Nat → Nat
  | 0, _, b => b
  | _ + 1, 0, b => b
  | f + 1, a + 1, b => natGcdF f (b % (a + 1)) (a + 1)

def natGcd (a b : Nat) : Nat := natGcdF (a + b + 1) a b

/-- Exact rational numbers in lowest terms with a positive denominator:
the model of Python numbers (int and float idealised as exact rationals).
A direct structure rather than Mathlib's Q so that every arithmetic
operation reduces definitionally on concrete inputs. -/
structure Q where
  n : ℤ
  d : ℕ
deriving DecidableEq

/-- Normalise a fraction (callers never pass a zero denominator; it maps
to 0 defensively). -/
def mkQ (num : ℤ) (den : ℤ) : Q :=
  if den = 0 then ⟨0, 1⟩
  else
    let sn : ℤ := if den < 0 then -num else num
    let dn : ℕ := den.natAbs
    let g : ℕ := natGcd sn.natAbs dn
    ⟨Int.tdiv sn (g : ℤ), dn / g⟩

def Q.ofInt (i : ℤ) : Q := ⟨i, 1⟩
def Q.ofN (k : ℕ) : Q := ⟨Int.ofNat k, 1⟩

instance (k : Nat) : OfNat Q k := ⟨⟨Int.ofNat k, 1⟩⟩
instance : Add Q := ⟨fun a b => mkQ (a.n * (b.d : ℤ) + b.n * (a.d : ℤ)) ((a.d : ℤ) * (b.d : ℤ))⟩
instance : Neg Q := ⟨fun a => ⟨-a.n, a.d⟩⟩
instance : Sub Q := ⟨fun a b => a + (-b)⟩
instance : Mul Q := ⟨fun a b => mkQ (a.n * b.n) ((a.d : ℤ) * (b.d : ℤ))⟩
instance : Div Q := ⟨fun a b => mkQ (a.n * (b.d : ℤ)) ((a.d : ℤ) * b.n)⟩

def qinv (a : Q) : Q := mkQ (a.d : ℤ) a.n

def qabs (a : Q) : Q := ⟨if a.n < 0 then -a.n else a.n, a.d⟩

def qpowN (a : Q) : ℕ → Q
  | 0 => ⟨1, 1⟩
  | k + 1 => a * qpowN a k

instance : LT Q := ⟨fun a b => a.n * (b.d : ℤ) < b.n * (a.d : ℤ)⟩
instance : LE Q := ⟨fun a b => a.n * (b.d : ℤ) ≤ b.n * (a.d : ℤ)⟩
instance (a b : Q) : Decidable (a < b) :=
  inferInstanceAs (Decidable (a.n * (b.d : ℤ) < b.n * (a.d : ℤ)))
instance (a b : Q) : Decidable (a ≤ b) :=
  inferInstanceAs (Decidable (a.n * (b.d : ℤ) ≤ b.n * (a.d : ℤ)))

/-- Floor of a rational. -/
def qfloor (a : Q) : ℤ := Int.fdiv a.n (a.d : ℤ)


mutual
/-- Python runtime values as producible by the evaluator: number, boolean,
string, list, tuple, the Python constant None, and (because the `mean`
table entry returns — rather than raises — an `EvalError` instance when
called with no arguments) an exception object used as a value. -/
inductive PyVal where
  | num (q : Q)
  | bool (b : Bool)
  | str (s : String)
  | list (elems : PyValList)
  | tuple (elems : PyValList)
  | exc (msg : String)
  | none
/-- A list of `PyVal` (mutual with `PyVal` so that recursion over nested
sequences stays structural). -/
inductive PyValList where
  | nil
  | cons (v : PyVal) (rest : PyValList)
end

/-- Python exceptions that the engine's code paths distinguish. -/
inductive PyExc where
  | typeError (msg : String)
  | zeroDivision (msg : String)
  | valueError (msg : String)
  | indexError (msg : String)
  | statsError (msg : String)
  | evalError (msg : String)
  | parseErr (msg : String)

/-- `str(e)` on a Python exception: its message. -/
def excMsg : PyExc → String
  | .typeError m => m
  | .zeroDivision m => m
  | .valueError m => m
  | .indexError m => m
  | .statsError m => m
  | .evalError m => m
  | .parseErr m => m

def PyValList.length : PyValList → Nat
  | .nil => 0
  | .cons _ rest => rest.length + 1

def PyValList.append : PyValList → PyValList → PyValList
  | .nil, ys => ys
  | .cons x xs, ys => .cons x (xs.append ys)

def PyValList.isEmptyB : PyValList → Bool
  | .nil => true
  | .cons _ _ => false

def PyValList.allB (p : PyVal → Bool) : PyValList → Bool
  | .nil => true
  | .cons v rest => p v && rest.allB p

def PyValList.anyB (p : PyVal → Bool) : PyValList → Bool
  | .nil => false
  | .cons v rest => p v || rest.anyB p

/-- n-fold repetition of a value list (Python sequence `*`). -/
def PyValList.rep (xs : PyValList) : Nat → PyValList
  | 0 => .nil
  | n + 1 => xs.append (xs.rep n)

/-- Element at index `i` (defaulting to `PyVal.none`; callers keep `i` in
range). -/
def PyValList.getAt : PyValList → Nat → PyVal
  | .nil, _ => PyVal.none
  | .cons v _, 0 => v
  | .cons _ rest, n + 1 => rest.getAt n

/-- Python `bool(int)` coercion: `True`/`False` are the integers 1/0, so
arithmetic and comparisons accept them wherever a number is accepted. -/
def coerceNum : PyVal → Option Q
  | .num q => some q
  | .bool b => some (if b then 1 else 0)
  | _ => none

/-- A value whose corresponding number is an integer (`int` or `bool`). -/
def coerceInt : PyVal → Option ℤ
  | v => match coerceNum v with
         | some q => if q.d = 1 then some q.n else none
         | Option.none => none

/-- Python truthiness (`bool(x)`). -/
def pyTruthy : PyVal → Bool
  | .num q => decide (q ≠ 0)
  | .bool b => b
  | .str s => !s.isEmpty
  | .list es => !es.isEmptyB
  | .tuple es => !es.isEmptyB
  | .exc _ => true
  | .none => false

mutual
/-- Python `==`. Numbers and booleans compare by value, sequences
elementwise; mismatched types are unequal (never an error); two distinct
exception instances compare unequal (object identity). -/
def pyEq : PyVal → PyVal → Bool
  | .num a, .num b => decide (a = b)
  | .num a, .bool b => decide (a = (if b then (1 : Q) else 0))
  | .bool a, .num b => decide ((if a then (1 : Q) else 0) = b)
  | .bool a, .bool b => a == b
  | .str a, .str b => a == b
  | .list a, .list b => pyEqList a b
  | .tuple a, .tuple b => pyEqList a b
  | .none, .none => true
  | _, _ => false
def pyEqList : PyValList → PyValList → Bool
  | .nil, .nil => true
  | .cons a as, .cons b bs => pyEq a b && pyEqList as bs
  | _, _ => false
end

mutual
/-- Python `<`: numeric (with bool coercion), string, and lexicographic
list/tuple comparison; anything else raises TypeError. -/
def pyLt : PyVal → PyVal → Except PyExc Bool
  | .str x, .str y => .ok (decide (x < y))
  | .list x, .list y => lexLt x y
  | .tuple x, .tuple y => lexLt x y
  | x, y =>
      match coerceNum x, coerceNum y with
      | some p, some q => .ok (decide (p < q))
      | _, _ => .error (.typeError "comparison not supported between these operand types")
/-- Python `<=` with the same domain as `pyLt`. -/
def pyLe : PyVal → PyVal → Except PyExc Bool
  | .str x, .str y => .ok (decide (x ≤ y))
  | .list x, .list y => lexLe x y
  | .tuple x, .tuple y => lexLe x y
  | x, y =>
      match coerceNum x, coerceNum y with
      | some p, some q => .ok (decide (p ≤ q))
      | _, _ => .error (.typeError "comparison not supported between these operand types")
/-- Lexicographic strict order on sequences. -/
def lexLt : PyValList → PyValList → Except PyExc Bool
  | .nil, .nil => .ok false
  | .nil, .cons _ _ => .ok true
  | .cons _ _, .nil => .ok false
  | .cons a as, .cons b bs => if pyEq a b then lexLt as bs else pyLt a b
/-- Lexicographic non-strict order on sequences. -/
def lexLe : PyValList → PyValList → Except PyExc Bool
  | .nil, _ => .ok true
  | .cons _ _, .nil => .ok false
  | .cons a as, .cons b bs => if pyEq a b then lexLe as bs else pyLt a b
end

/-- Repeat a string n times (Python `str * int`). -/
def strRep (s : String) : Nat → String
  | 0 => ""
  | n + 1 => s ++ strRep s n

/-- Truncation toward zero, Python `int(q)` on a number. -/
def truncQ (q : Q) : ℤ := Int.tdiv q.n (q.d : ℤ)

/-- `q ^ n` for an integer exponent, as Python computes `a ** b` when the
exponent is integral (callers exclude `0 ** negative`). -/
def zpowQ (a : Q) (n : ℤ) : Q :=
  if 0 ≤ n then qpowN a n.toNat else qinv (qpowN a (-n).toNat)

/-- The binary operator tags of the `ops` table in
`SafeEvaluator.visit_BinOp` (ast.Add .. ast.Pow); `otherB` stands for any
other ast binary operator class, which hits the trailing
`raise EvalError` in the source. -/
inductive BOp where
  | add | sub | mult | div | floorDiv | mod | pow | otherB

/-- Unary operator tags of `visit_UnaryOp`; `invert` stands for any
unary operator without a branch (ast.Invert), which is rejected. -/
inductive UOp where
  | uadd | usub | notOp | invert

/-- `ast.And` / `ast.Or`. -/
inductive BoolKind where
  | andK | orK

/-- Comparison operator tags of `visit_Compare`; `otherC` stands for any
comparison operator without a branch (ast.Is, ast.In, ...), which raises
`EvalError("Unsupported comparison")`. -/
inductive CmpOp where
  | eq | ne | lt | le | gt | ge | otherC
deriving DecidableEq

/-- Abstract parameters for the floating-point library functions and the
random number generator used by `CalculatorEngine._prepare_functions`.
These have no exact rational counterpart, so they enter the model as
unconstrained functions; no claim settled here depends on their values. -/
structure FloatFns where
  sin : Q → Q
  cos : Q → Q
  tan : Q → Q
  /-- math.radians on the float trace. -/
  radians : Q → Q
  /-- math.sqrt on a nonnegative argument. -/
  sqrtQ : Q → Q
  /-- math.log10 on a positive argument. -/
  log10 : Q → Q
  /-- math.log(x, base) on valid arguments. -/
  logBase : Q → Q → Q
  /-- math.log on a positive argument. -/
  ln : Q → Q
  /-- float `**` for a non-integral exponent. -/
  fpow : Q → Q → Except PyExc Q
  /-- random.random(). -/
  rand : Q
  /-- index chosen by random.choice on a sequence. -/
  pick : PyValList → Nat
  piQ : Q
  eQ : Q

/-- An arbitrary instantiation of the abstract float/RNG parameters, used
to state closed theorems about expressions that never reach them. -/
def defaultFloatFns : FloatFns where
  sin := fun _ => 0
  cos := fun _ => 0
  tan := fun _ => 0
  radians := fun _ => 0
  sqrtQ := fun _ => 0
  log10 := fun _ => 0
  logBase := fun _ _ => 0
  ln := fun _ => 0
  fpow := fun _ _ => .error (.typeError "abstract float power")
  rand := 0
  pick := fun _ => 0
  piQ := 0
  eQ := 0

/-- Python `+` (operator.add): numeric addition with bool coercion, string
and sequence concatenation; anything else raises TypeError. -/
def pyAdd : PyVal → PyVal → Except PyExc PyVal
  | .str a, .str b => .ok (.str (a ++ b))
  | .list a, .list b => .ok (.list (a.append b))
  | .tuple a, .tuple b => .ok (.tuple (a.append b))
  | x, y =>
      match coerceNum x, coerceNum y with
      | some p, some q => .ok (.num (p + q))
      | _, _ => .error (.typeError "unsupported operand types for +")

/-- Python `-` (operator.sub): numeric only. -/
def pySub (x y : PyVal) : Except PyExc PyVal :=
  match coerceNum x, coerceNum y with
  | some p, some q => .ok (.num (p - q))
  | _, _ => .error (.typeError "unsupported operand types for -")

/-- Python `*` (operator.mul): numeric product, or sequence/string
repetition by an integer. -/
def pyMult : PyVal → PyVal → Except PyExc PyVal
  | .str s, y =>
      match coerceInt y with
      | some n => .ok (.str (strRep s n.toNat))
      | Option.none => .error (.typeError "cannot multiply sequence by non-integer")
  | x, .str s =>
      match coerceInt x with
      | some n => .ok (.str (strRep s n.toNat))
      | Option.none => .error (.typeError "cannot multiply sequence by non-integer")
  | .list es, y =>
      match coerceInt y with
      | some n => .ok (.list (es.rep n.toNat))
      | Option.none => .error (.typeError "cannot multiply sequence by non-integer")
  | x, .list es =>
      match coerceInt x with
      | some n => .ok (.list (es.rep n.toNat))
      | Option.none => .error (.typeError "cannot multiply sequence by non-integer")
  | .tuple es, y =>
      match coerceInt y with
      | some n => .ok (.tuple (es.rep n.toNat))
      | Option.none => .error (.typeError "cannot multiply sequence by non-integer")
  | x, .tuple es =>
      match coerceInt x with
      | some n => .ok (.tuple (es.rep n.toNat))
      | Option.none => .error (.typeError "cannot multiply sequence by non-integer")
  | x, y =>
      match coerceNum x, coerceNum y with
      | some p, some q => .ok (.num (p * q))
      | _, _ => .error (.typeError "unsupported operand types for *")

/-- Python `/` (operator.truediv): raises ZeroDivisionError on a zero
divisor. -/
def pyDiv (x y : PyVal) : Except PyExc PyVal :=
  match coerceNum x, coerceNum y with
  | some p, some q =>
      if q = 0 then .error (.zeroDivision "division by zero")
      else .ok (.num (p / q))
  | _, _ => .error (.typeError "unsupported operand types for /")

/-- Python `//` (operator.floordiv). -/
def pyFloorDiv (x y : PyVal) : Except PyExc PyVal :=
  match coerceNum x, coerceNum y with
  | some p, some q =>
      if q = 0 then .error (.zeroDivision "integer division or modulo by zero")
      else .ok (.num (Q.ofInt (qfloor (p / q))))
  | _, _ => .error (.typeError "unsupported operand types for //")

/-- Python `%` (operator.mod): the sign of the result follows the divisor,
i.e. `a % b = a - b * floor(a / b)`. -/
def pyMod (x y : PyVal) : Except PyExc PyVal :=
  match coerceNum x, coerceNum y with
  | some p, some q =>
      if q = 0 then .error (.zeroDivision "integer division or modulo by zero")
      else .ok (.num (p - q * Q.ofInt (qfloor (p / q))))
  | _, _ => .error (.typeError "unsupported operand types for %")

/-- Python `**` (operator.pow): exact for an integral exponent
(with `0 ** negative` raising ZeroDivisionError as in Python); a
non-integral exponent is the abstract float power `F.fpow`. -/
def pyPow (F : FloatFns) (x y : PyVal) : Except PyExc PyVal :=
  match coerceNum x, coerceNum y with
  | some p, some q =>
      if q.d = 1 then
        if p = 0 ∧ q.n < 0 then
          .error (.zeroDivision "zero cannot be raised to a negative power")
        else .ok (.num (zpowQ p q.n))
      else
        match F.fpow p q with
        | .ok r => .ok (.num r)
        | .error e => .error e
  | _, _ => .error (.typeError "unsupported operand types for **")

/-- Dispatch for the `ops` dictionary in `visit_BinOp` (the `otherB` case
is handled by the caller, mirroring the for-loop falling through to
`raise EvalError`). -/
def applyBinOp (F : FloatFns) : BOp → PyVal → PyVal → Except PyExc PyVal
  | .add, a, b => pyAdd a b
  | .sub, a, b => pySub a b
  | .mult, a, b => pyMult a b
  | .div, a, b => pyDiv a b
  | .floorDiv, a, b => pyFloorDiv a b
  | .mod, a, b => pyMod a b
  | .pow, a, b => pyPow F a b
  | .otherB, _, _ => .error (.evalError "Unsupported binary operator")

/-- Python unary `+`: numeric identity (TypeError otherwise); raised
exceptions propagate uncaught out of `visit_UnaryOp`. -/
def pyPos (v : PyVal) : Except PyExc PyVal :=
  match coerceNum v with
  | some q => .ok (.num q)
  | Option.none => .error (.typeError "bad operand type for unary +")

/-- Python unary `-`. -/
def pyNeg (v : PyVal) : Except PyExc PyVal :=
  match coerceNum v with
  | some q => .ok (.num (-q))
  | Option.none => .error (.typeError "bad operand type for unary -")

/-- The comparison dispatch of `visit_Compare` (`ast.Eq` .. `ast.GtE`);
`otherC` is handled by the caller. `==`/`!=` never raise; the order
comparisons may raise TypeError, which propagates uncaught. -/
def pyCompare : CmpOp → PyVal → PyVal → Except PyExc Bool
  | .eq, a, b => .ok (pyEq a b)
  | .ne, a, b => .ok (!pyEq a b)
  | .lt, a, b => pyLt a b
  | .le, a, b => pyLe a b
  | .gt, a, b => pyLt b a
  | .ge, a, b => pyLe b a
  | .otherC, _, _ => .error (.evalError "Unsupported comparison")

/-- Lowercasing as Python str.lower on ASCII identifiers (defined over the
character list so that it reduces definitionally). -/
def strLower (s : String) : String := ⟨s.data.map Char.toLower⟩

/-- First-match association-list lookup, modelling Python dict lookup for
the function and name tables (entries shadow later ones). -/
def lookupStr {α : Type} : List (String × α) → String → Option α
  | [], _ => none
  | (k, v) :: rest, key => if k = key then some v else lookupStr rest key

/-- Extract the rationals of a value list (None when some element is not
numeric), as the statistics functions require numeric data. -/
def coerceAll : PyValList → Option (List Q)
  | .nil => some []
  | .cons v rest =>
      match coerceNum v, coerceAll rest with
      | some q, some qs => some (q :: qs)
      | _, _ => none

def sumQ : List Q → Q
  | [] => 0
  | q :: qs => q + sumQ qs

/-- Insertion into a sorted list of rationals. -/
def insertQ (q : Q) : List Q → List Q
  | [] => [q]
  | x :: xs => if q ≤ x then q :: x :: xs else x :: insertQ q xs

/-- Insertion sort (the sort performed by statistics.median). -/
def sortQ : List Q → List Q
  | [] => []
  | x :: xs => insertQ x (sortQ xs)

def getQ (l : List Q) (i : Nat) : Q := l.getD i 0

/-- Number of occurrences of `v` in the list (Python `==` counting, as
collections.Counter groups equal keys). -/
def countOccs (v : PyVal) : PyValList → Nat
  | .nil => 0
  | .cons w rest => (if pyEq v w then 1 else 0) + countOccs v rest

def containsVal (v : PyVal) : PyValList → Bool
  | .nil => false
  | .cons w rest => pyEq v w || containsVal v rest

/-- Modelled from the Python standard library: `statistics.mode` on
Python 3.8 and later returns the first value encountered with maximal
multiplicity (Counter insertion order; no StatisticsError on ties). -/
def firstModeAux (full : PyValList) : PyValList → PyValList → PyVal → Nat → PyVal
  | .nil, _, best, _ => best
  | .cons v rest, seen, best, bestC =>
      if containsVal v seen then firstModeAux full rest seen best bestC
      else
        let c := countOccs v full
        if bestC < c then firstModeAux full rest (.cons v seen) v c
        else firstModeAux full rest (.cons v seen) best bestC

def firstMode (args : PyValList) : PyVal :=
  match args with
  | .nil => PyVal.none
  | .cons v rest => firstModeAux args rest (.cons v .nil) v (countOccs v args)

/-- An argument statistics.mode cannot hash (lists/tuples), on which it
raises TypeError instead of counting. -/
def anyUnhashable : PyValList → Bool
  | .nil => false
  | .cons (.list _) _ => true
  | .cons (.tuple _) _ => true
  | .cons _ rest => anyUnhashable rest

/-- `CalculatorEngine._safe_mode`: statistics.mode over the arguments with
StatisticsError (raised only for empty data on Python 3.8+) converted to
the sentinel string. -/
def safe_mode (args : PyValList) : Except PyExc PyVal :=
  if anyUnhashable args then .error (.typeError "unhashable type")
  else
    match args with
    | .nil => .ok (.str "No unique mode")
    | _ => .ok (firstMode args)

/-- Sample mean of nonempty numeric data. -/
def meanQ (qs : List Q) : Q := sumQ qs / Q.ofN qs.length

/-- Sample variance `sum((x - mean)^2) / (n - 1)` of data with n ≥ 2. -/
def varianceQ (qs : List Q) : Q :=
  let m := meanQ qs
  sumQ (qs.map (fun q => (q - m) * (q - m))) / (Q.ofN qs.length - 1)

/-- Round-half-to-even to an integer (Python `round`). -/
def halfEvenRound (q : Q) : ℤ :=
  let f := qfloor q
  let r := q - Q.ofInt f
  if r < ⟨1, 2⟩ then f
  else if (⟨1, 2⟩ : Q) < r then f + 1
  else if f % 2 = 0 then f else f + 1

/-- `_angle_wrapper`: wraps a trig function so that in any mode other than
"rad" the argument is converted with math.radians first.  The numeric
domain (float idealised as Q or ℝ) and the radians conversion are
parameters so the same definition serves the executable pipeline and the
real-number verification of the trig layer. -/
def angle_wrapper {α : Type} (mode : String) (radiansFn : α → α) (trig_fn : α → α) : α → α :=
  if mode = "rad" then fun x => trig_fn x
  else fun x => trig_fn (radiansFn x)

/-- The type of an entry of the function table: Python positional
arguments in, value out or an exception. -/
def FuncImpl : Type := PyValList → Except PyExc PyVal

/-- A mode-aware trig entry (`sin`, `cos`, `tan`): one numeric argument,
wrapped by `_angle_wrapper`. -/
def trigEntry (mode : String) (F : FloatFns) (fn : Q → Q) : FuncImpl :=
  fun args =>
    match args with
    | .cons v .nil =>
        match coerceNum v with
        | some q => .ok (.num (angle_wrapper mode F.radians fn q))
        | Option.none => .error (.typeError "must be a real number")
    | _ => .error (.typeError "takes exactly one argument")

/-- A reciprocal-trig entry (`sec = 1/cos`, etc.): the wrapped trig value
is computed and then divided into 1, raising ZeroDivisionError when it is
exactly zero. -/
def recipTrigEntry (mode : String) (F : FloatFns) (fn : Q → Q) : FuncImpl :=
  fun args =>
    match args with
    | .cons v .nil =>
        match coerceNum v with
        | some q =>
            let c := angle_wrapper mode F.radians fn q
            if c = 0 then .error (.zeroDivision "float division by zero")
            else .ok (.num (1 / c))
        | Option.none => .error (.typeError "must be a real number")
    | _ => .error (.typeError "takes exactly one argument")

/-- math.log(x, base): ValueError outside the domain, ZeroDivisionError
for base 1 (log(base) = 0 divides), otherwise the abstract float value. -/
def logBaseEntry (F : FloatFns) (x b : Q) : Except PyExc PyVal :=
  if x ≤ 0 ∨ b ≤ 0 then .error (.valueError "math domain error")
  else if b = 1 then .error (.zeroDivision "float division by zero")
  else .ok (.num (F.logBase x b))

/-- Python min/max fold: keep the better of the current result and the
next candidate, comparing with `<`. -/
def minFold : PyVal → PyValList → Except PyExc PyVal
  | acc, .nil => .ok acc
  | acc, .cons x rest =>
      match pyLt x acc with
      | .ok b => minFold (if b then x else acc) rest
      | .error e => .error e

def maxFold : PyVal → PyValList → Except PyExc PyVal
  | acc, .nil => .ok acc
  | acc, .cons x rest =>
      match pyLt acc x with
      | .ok b => maxFold (if b then x else acc) rest
      | .error e => .error e

/-- Parse a nonempty all-digit string as a natural number
(Python `int(str)` for the simple case). -/
def digitsToNat (cs : List Char) : Nat :=
  cs.foldl (fun acc c => 10 * acc + (c.toNat - '0'.toNat)) 0

def strToNat? (s : String) : Option Nat :=
  if s.data ≠ [] ∧ s.data.all Char.isDigit then some (digitsToNat s.data) else none

/-- math.sqrt: one numeric argument, ValueError on a negative one. -/
def sqrtEntry (F : FloatFns) : FuncImpl :=
  fun args =>
    match args with
    | .cons v .nil =>
        match coerceNum v with
        | some q =>
            if q < 0 then .error (.valueError "math domain error")
            else .ok (.num (F.sqrtQ q))
        | Option.none => .error (.typeError "must be a real number")
    | _ => .error (.typeError "sqrt takes exactly one argument")

/-- The engine's `log` lambda: `log10(a[0])` for one argument, otherwise
`math.log(a[0], a[1])` (any further arguments are silently ignored, and
zero arguments hit `a[0]` and raise IndexError). -/
def logEntry (F : FloatFns) : FuncImpl :=
  fun args =>
    match args with
    | .nil => .error (.indexError "tuple index out of range")
    | .cons x .nil =>
        match coerceNum x with
        | some q =>
            if q ≤ 0 then .error (.valueError "math domain error")
            else .ok (.num (F.log10 q))
        | Option.none => .error (.typeError "must be a real number")
    | .cons x (.cons b _) =>
        match coerceNum x, coerceNum b with
        | some q, some r => logBaseEntry F q r
        | _, _ => .error (.typeError "must be a real number")

/-- `ln` is math.log itself: natural log for one argument, but also
accepting the two-argument generic-log form (the quirk recorded in the
spec). -/
def lnEntry (F : FloatFns) : FuncImpl :=
  fun args =>
    match args with
    | .cons x .nil =>
        match coerceNum x with
        | some q =>
            if q ≤ 0 then .error (.valueError "math domain error")
            else .ok (.num (F.ln q))
        | Option.none => .error (.typeError "must be a real number")
    | .cons x (.cons b .nil) =>
        match coerceNum x, coerceNum b with
        | some q, some r => logBaseEntry F q r
        | _, _ => .error (.typeError "must be a real number")
    | _ => .error (.typeError "log expected 1 or 2 arguments")

/-- The engine's `mean` lambda.  Note the source bug: with zero arguments
it RETURNS the expression `EvalError("mean() needs args")` — a freshly
constructed exception object — instead of raising it, so the call
succeeds with that object as its value. -/
def meanEntry : FuncImpl :=
  fun args =>
    match args with
    | .nil => .ok (.exc "mean() needs args")
    | _ =>
        match coerceAll args with
        | some qs => .ok (.num (meanQ qs))
        | Option.none => .error (.typeError "cannot convert value to number")

/-- statistics.median: middle of the sorted data, mean of the two middle
values for even-length data, StatisticsError for empty data. -/
def medianEntry : FuncImpl :=
  fun args =>
    match coerceAll args with
    | some [] => .error (.statsError "no median for empty data")
    | some qs =>
        let sorted := sortQ qs
        let n := qs.length
        if n % 2 = 1 then .ok (.num (getQ sorted (n / 2)))
        else .ok (.num ((getQ sorted (n / 2 - 1) + getQ sorted (n / 2)) / 2))
    | Option.none => .error (.typeError "cannot convert value to number")

/-- std/stdev: `statistics.stdev(a)` for more than one argument, else the
`_raise` helper raises `EvalError("Need ≥2 values for stdev")`. -/
def stdevEntry (F : FloatFns) : FuncImpl :=
  fun args =>
    if 1 < args.length then
      match coerceAll args with
      | some qs => .ok (.num (F.sqrtQ (varianceQ qs)))
      | Option.none => .error (.typeError "cannot convert value to number")
    else .error (.evalError "Need ≥2 values for stdev")

/-- variance: `statistics.variance(a)` for more than one argument, else
`EvalError("Need ≥2 values for variance")` via `_raise`. -/
def varianceEntry : FuncImpl :=
  fun args =>
    if 1 < args.length then
      match coerceAll args with
      | some qs => .ok (.num (varianceQ qs))
      | Option.none => .error (.typeError "cannot convert value to number")
    else .error (.evalError "Need ≥2 values for variance")

/-- Python min over the argument tuple. -/
def minEntry : FuncImpl :=
  fun args =>
    match args with
    | .nil => .error (.valueError "min() arg is an empty sequence")
    | .cons v rest => minFold v rest

def maxEntry : FuncImpl :=
  fun args =>
    match args with
    | .nil => .error (.valueError "max() arg is an empty sequence")
    | .cons v rest => maxFold v rest

/-- Python abs builtin: numeric only. -/
def absEntry : FuncImpl :=
  fun args =>
    match args with
    | .cons v .nil =>
        match coerceNum v with
        | some q => .ok (.num (qabs q))
        | Option.none => .error (.typeError "bad operand type for abs()")
    | _ => .error (.typeError "abs() takes exactly one argument")

/-- Python round builtin: banker's rounding, optional integral ndigits. -/
def roundEntry : FuncImpl :=
  fun args =>
    match args with
    | .cons v .nil =>
        match coerceNum v with
        | some q => .ok (.num (Q.ofInt (halfEvenRound q)))
        | Option.none => .error (.typeError "type cannot be rounded")
    | .cons v (.cons nd .nil) =>
        match coerceNum v, coerceInt nd with
        | some q, some m =>
            let scale : Q := zpowQ 10 m
            .ok (.num (Q.ofInt (halfEvenRound (q * scale)) / scale))
        | some _, Option.none => .error (.typeError "ndigits cannot be interpreted as an integer")
        | _, _ => .error (.typeError "type cannot be rounded")
    | _ => .error (.typeError "round() takes 1 or 2 arguments")

/-- The engine's factorial lambda: `math.factorial(int(n))`; `int` also
parses simple digit strings, and math.factorial rejects negatives. -/
def factorialEntry : FuncImpl :=
  fun args =>
    match args with
    | .cons v .nil =>
        match v with
        | .str s =>
            match strToNat? s with
            | some n => .ok (.num (Q.ofN (Nat.factorial n)))
            | Option.none => .error (.valueError "invalid literal for int()")
        | _ =>
            match coerceNum v with
            | some q =>
                let t := truncQ q
                if t < 0 then .error (.valueError "factorial() not defined for negative values")
                else .ok (.num (Q.ofN (Nat.factorial t.toNat)))
            | Option.none => .error (.typeError "an integer is required")
    | _ => .error (.typeError "factorial() takes exactly one argument")

/-- The `mod` lambda: `a % b`, exactly the `%` operator applied to two
positional arguments. -/
def modEntry : FuncImpl :=
  fun args =>
    match args with
    | .cons a (.cons b .nil) => pyMod a b
    | _ => .error (.typeError "mod() takes exactly 2 arguments")

/-- `rand`: the zero-parameter lambda around random.random(). -/
def randEntry (F : FloatFns) : FuncImpl :=
  fun args =>
    match args with
    | .nil => .ok (.num F.rand)
    | _ => .error (.typeError "rand() takes no arguments")

/-- The `choice` lambda: `random.choice(a[0])` when there is exactly one
argument and it is a list or tuple, else `_raise` with the descriptive
EvalError; random.choice itself raises IndexError on an empty sequence. -/
def choiceEntry (F : FloatFns) : FuncImpl :=
  fun args =>
    match args with
    | .cons (.list es) .nil =>
        match es with
        | .nil => .error (.indexError "Cannot choose from an empty sequence")
        | _ => .ok (es.getAt (F.pick es % es.length))
    | .cons (.tuple es) .nil =>
        match es with
        | .nil => .error (.indexError "Cannot choose from an empty sequence")
        | _ => .ok (es.getAt (F.pick es % es.length))
    | _ => .error (.evalError "choice requires a single sequence argument")

/-- `CalculatorEngine._prepare_functions`: the allow-listed function table,
in source order, rebuilt for a given angle mode. -/
def prepare_functions (mode : String) (F : FloatFns) : List (String × FuncImpl) :=
  [ ("sin", trigEntry mode F F.sin),
    ("cos", trigEntry mode F F.cos),
    ("tan", trigEntry mode F F.tan),
    ("sec", recipTrigEntry mode F F.cos),
    ("csc", recipTrigEntry mode F F.sin),
    ("cot", recipTrigEntry mode F F.tan),
    ("sqrt", sqrtEntry F),
    ("log", logEntry F),
    ("ln", lnEntry F),
    ("mean", meanEntry),
    ("median", medianEntry),
    ("mode", fun args => safe_mode args),
    ("std", stdevEntry F),
    ("stdev", stdevEntry F),
    ("variance", varianceEntry),
    ("min", minEntry),
    ("max", maxEntry),
    ("abs", absEntry),
    ("round", roundEntry),
    ("factorial", factorialEntry),
    ("mod", modEntry),
    ("rand", randEntry F),
    ("choice", choiceEntry F) ]

/-- `CalculatorEngine._prepare_names`: `pi` and `e`, plus caller-supplied
bindings with lowercased keys, which shadow the base names on lookup. -/
def prepare_names (F : FloatFns) (extra : List (String × PyVal)) : List (String × PyVal) :=
  (extra.map (fun p => (strLower p.1, p.2))) ++ [("pi", .num F.piQ), ("e", .num F.eQ)]

mutual
/-- The ast expression nodes as seen by `SafeEvaluator.visit`.  The
constructors with a `visit_` method are explicit; `other` stands for any
node class without one (Attribute, Subscript, Lambda, Dict, ...), whose
name is the string carried, dispatched to `generic_visit`.  A Call keeps
its (never visited) keyword arguments, and its callee is a full
expression since `visit_Call` checks `isinstance(node.func, ast.Name)`
itself. -/
inductive Expr where
  | constant (v : PyVal)
  | unaryOp (op : UOp) (e : Expr)
  | binOp (l : Expr) (op : BOp) (r : Expr)
  | boolOp (op : BoolKind) (es : ExprList)
  | compare (first : Expr) (pairs : CmpList)
  | call (func : Expr) (args : ExprList) (kws : KwList)
  | name (id : String)
  | listLit (es : ExprList)
  | tupleLit (es : ExprList)
  | other (cls : String)
/-- Operand lists (mutual with Expr for structural recursion). -/
inductive ExprList where
  | nil
  | cons (e : Expr) (rest : ExprList)
/-- The `(op, comparator)` pairs of an ast.Compare node. -/
inductive CmpList where
  | nil
  | cons (op : CmpOp) (e : Expr) (rest : CmpList)
/-- Keyword arguments of a Call node (never evaluated by the engine). -/
inductive KwList where
  | nil
  | cons (k : String) (e : Expr) (rest : KwList)
end

mutual
/-- `SafeEvaluator.visit`, one branch per `visit_*` method.  `F` carries
the abstract float semantics needed by `**` on non-integral exponents;
`funcs`/`names` are the evaluator's two environment tables. -/
def visit (F : FloatFns) (funcs : List (String × FuncImpl)) (names : List (String × PyVal)) :
    Expr → Except PyExc PyVal
  | .constant v => .ok v
  | .unaryOp op e =>
      match visit F funcs names e with
      | .error exn => .error exn
      | .ok v =>
          match op with
          | .uadd => pyPos v
          | .usub => pyNeg v
          | .notOp => .ok (.bool (!pyTruthy v))
          | .invert => .error (.evalError "Unsupported unary operator")
  | .binOp l op r =>
      match visit F funcs names l with
      | .error exn => .error exn
      | .ok a =>
          match visit F funcs names r with
          | .error exn => .error exn
          | .ok b =>
              match op with
              | .otherB => .error (.evalError "Unsupported binary operator")
              | _ =>
                  match applyBinOp F op a b with
                  | .ok v => .ok v
                  | .error (.zeroDivision _) => .error (.evalError "Division by zero")
                  | .error exn => .error (.evalError (excMsg exn))
  | .boolOp op es =>
      match visitList F funcs names es with
      | .error exn => .error exn
      | .ok vs =>
          match op with
          | .andK => .ok (.bool (vs.allB pyTruthy))
          | .orK => .ok (.bool (vs.anyB pyTruthy))
  | .compare first pairs =>
      match visit F funcs names first with
      | .error exn => .error exn
      | .ok v0 =>
          match visitCmp F funcs names v0 true pairs with
          | .error exn => .error exn
          | .ok b => .ok (.bool b)
  | .call f args _kws =>
      match f with
      | .name fid =>
          let fname := strLower fid
          match lookupStr funcs fname with
          | Option.none => .error (.evalError ("Unknown function: " ++ fname))
          | some fn =>
              match visitList F funcs names args with
              | .error exn => .error exn
              | .ok vs =>
                  match fn vs with
                  | .ok v => .ok v
                  | .error (.typeError m) => .error (.evalError ("Function call error: " ++ m))
                  | .error exn => .error (.evalError (excMsg exn))
      | _ => .error (.evalError "Only direct function calls allowed")
  | .name id =>
      match lookupStr names (strLower id) with
      | some v => .ok v
      | Option.none => .error (.evalError ("Unknown name: " ++ id))
  | .listLit es =>
      match visitList F funcs names es with
      | .error exn => .error exn
      | .ok vs => .ok (.list vs)
  | .tupleLit es =>
      match visitList F funcs names es with
      | .error exn => .error exn
      | .ok vs => .ok (.tuple vs)
  | .other cls => .error (.evalError ("Unsupported expression: " ++ cls))
/-- Left-to-right evaluation of an operand list. -/
def visitList (F : FloatFns) (funcs : List (String × FuncImpl)) (names : List (String × PyVal)) :
    ExprList → Except PyExc PyValList
  | .nil => .ok .nil
  | .cons e rest =>
      match visit F funcs names e with
      | .error exn => .error exn
      | .ok v =>
          match visitList F funcs names rest with
          | .error exn => .error exn
          | .ok vs => .ok (.cons v vs)
/-- The loop body of `visit_Compare`: every comparator operand is
evaluated; the comparison itself runs only while the accumulated `result`
is still truthy (Python `result = result and (left OP right)`), and
`left` always advances to the operand just evaluated. -/
def visitCmp (F : FloatFns) (funcs : List (String × FuncImpl)) (names : List (String × PyVal)) :
    PyVal → Bool → CmpList → Except PyExc Bool
  | _, result, .nil => .ok result
  | left, result, .cons op comp rest =>
      match visit F funcs names comp with
      | .error exn => .error exn
      | .ok right =>
          match op with
          | .otherC => .error (.evalError "Unsupported comparison")
          | _ =>
              match (if result then pyCompare op left right else .ok false) with
              | .error exn => .error exn
              | .ok result2 => visitCmp F funcs names right result2 rest
end

/-- Tokens of the modelled tokenizer (spec section 4.1): numbers,
identifiers, and operator/punctuation symbols. -/
inductive Tok where
  | num (q : Q)
  | ident (s : String)
  | sym (s : String)

def isIdentStart (c : Char) : Bool := c.isAlpha || c == '_'
def isIdentChar (c : Char) : Bool := c.isAlphanum || c == '_'

/-- Longest-match operator/punctuation recognition. -/
def munchSym : List Char → Option (String × List Char)
  | '*' :: '*' :: r => some ("**", r)
  | '/' :: '/' :: r => some ("//", r)
  | '=' :: '=' :: r => some ("==", r)
  | '!' :: '=' :: r => some ("!=", r)
  | '<' :: '=' :: r => some ("<=", r)
  | '>' :: '=' :: r => some (">=", r)
  | '+' :: r => some ("+", r)
  | '-' :: r => some ("-", r)
  | '*' :: r => some ("*", r)
  | '/' :: r => some ("/", r)
  | '%' :: r => some ("%", r)
  | '(' :: r => some ("(", r)
  | ')' :: r => some (")", r)
  | ',' :: r => some (",", r)
  | '<' :: r => some ("<", r)
  | '>' :: r => some (">", r)
  | '[' :: r => some ("[", r)
  | ']' :: r => some ("]", r)
  | _ => none

/-- Modelled from the spec (section 4.1): the tokenizer.  Whitespace is
discarded; numerals are decimal integers or floats; identifiers are
maximal runs of letters/digits/underscores not starting with a digit
(matching the host tokenizer, so "0and1" is the number 0 followed by the
single identifier "and1"); unknown characters are a lexical error.  Fuel
decreases every step; each step consumes at least one character. -/
def lexChars : Nat → List Char → Except String (List Tok)
  | 0, _ => .error "lexer fuel exhausted"
  | _ + 1, [] => .ok []
  | fuel + 1, c :: rest =>
      if c == ' ' || c == '\t' then lexChars fuel rest
      else if c.isDigit then
        let intDs := (c :: rest).takeWhile Char.isDigit
        let r1 := (c :: rest).dropWhile Char.isDigit
        match r1 with
        | '.' :: r2 =>
            let fracDs := r2.takeWhile Char.isDigit
            let r3 := r2.dropWhile Char.isDigit
            let q : Q := Q.ofN (digitsToNat intDs) +
              Q.ofN (digitsToNat fracDs) / qpowN 10 fracDs.length
            match lexChars fuel r3 with
            | .ok ts => .ok (Tok.num q :: ts)
            | .error m => .error m
        | _ =>
            match lexChars fuel r1 with
            | .ok ts => .ok (Tok.num (Q.ofN (digitsToNat intDs)) :: ts)
            | .error m => .error m
      else if isIdentStart c then
        let idCs := (c :: rest).takeWhile isIdentChar
        let r1 := (c :: rest).dropWhile isIdentChar
        match lexChars fuel r1 with
        | .ok ts => .ok (Tok.ident ⟨idCs⟩ :: ts)
        | .error m => .error m
      else
        match munchSym (c :: rest) with
        | some (s, r1) =>
            match lexChars fuel r1 with
            | .ok ts => .ok (Tok.sym s :: ts)
            | .error m => .error m
        | Option.none => .error ("Unexpected character: " ++ ⟨[c]⟩)

def lex (s : String) : Except String (List Tok) :=
  lexChars (s.data.length + 1) s.data

def cmpOfSym : String → Option CmpOp
  | "==" => some CmpOp.eq
  | "!=" => some CmpOp.ne
  | "<" => some CmpOp.lt
  | "<=" => some CmpOp.le
  | ">" => some CmpOp.gt
  | ">=" => some CmpOp.ge
  | _ => none

def addOfSym : String → Option BOp
  | "+" => some BOp.add
  | "-" => some BOp.sub
  | _ => none

def mulOfSym : String → Option BOp
  | "*" => some BOp.mult
  | "/" => some BOp.div
  | "//" => some BOp.floorDiv
  | "%" => some BOp.mod
  | _ => none

mutual
/-- Modelled from the spec (section 4.2): `Or := And ( "or" And )*`.
Multiple operands collapse into a single BoolOp node, as the host ast
does.  All parse functions return the parsed node and the unconsumed
tokens; fuel decreases on every call and is chosen large enough by
`parseExpr`. -/
def pOr : Nat → List Tok → Except String (Expr × List Tok)
  | 0, _ => .error "parse fuel exhausted"
  | fuel + 1, ts =>
      match pAnd fuel ts with
      | .error m => .error m
      | .ok (e, ts1) =>
          match pOrTail fuel ts1 with
          | .error m => .error m
          | .ok (.nil, ts2) => .ok (e, ts2)
          | .ok (es, ts2) => .ok (.boolOp .orK (.cons e es), ts2)
def pOrTail : Nat → List Tok → Except String (ExprList × List Tok)
  | 0, _ => .error "parse fuel exhausted"
  | fuel + 1, ts =>
      match ts with
      | .ident "or" :: rest =>
          match pAnd fuel rest with
          | .error m => .error m
          | .ok (e, ts1) =>
              match pOrTail fuel ts1 with
              | .error m => .error m
              | .ok (es, ts2) => .ok (.cons e es, ts2)
      | _ => .ok (.nil, ts)
/-- `And := Not ( "and" Not )*`. -/
def pAnd : Nat → List Tok → Except String (Expr × List Tok)
  | 0, _ => .error "parse fuel exhausted"
  | fuel + 1, ts =>
      match pNot fuel ts with
      | .error m => .error m
      | .ok (e, ts1) =>
          match pAndTail fuel ts1 with
          | .error m => .error m
          | .ok (.nil, ts2) => .ok (e, ts2)
          | .ok (es, ts2) => .ok (.boolOp .andK (.cons e es), ts2)
def pAndTail : Nat → List Tok → Except String (ExprList × List Tok)
  | 0, _ => .error "parse fuel exhausted"
  | fuel + 1, ts =>
      match ts with
      | .ident "and" :: rest =>
          match pNot fuel rest with
          | .error m => .error m
          | .ok (e, ts1) =>
              match pAndTail fuel ts1 with
              | .error m => .error m
              | .ok (es, ts2) => .ok (.cons e es, ts2)
      | _ => .ok (.nil, ts)
/-- `Not := "not" Not | Compare`. -/
def pNot : Nat → List Tok → Except String (Expr × List Tok)
  | 0, _ => .error "parse fuel exhausted"
  | fuel + 1, ts =>
      match ts with
      | .ident "not" :: rest =>
          match pNot fuel rest with
          | .error m => .error m
          | .ok (e, ts1) => .ok (.unaryOp .notOp e, ts1)
      | _ => pCompare fuel ts
/-- `Compare := Additive ( CmpOp Additive )*`. -/
def pCompare : Nat → List Tok → Except String (Expr × List Tok)
  | 0, _ => .error "parse fuel exhausted"
  | fuel + 1, ts =>
      match pAdd fuel ts with
      | .error m => .error m
      | .ok (e, ts1) =>
          match pCmpTail fuel ts1 with
          | .error m => .error m
          | .ok (.nil, ts2) => .ok (e, ts2)
          | .ok (ps, ts2) => .ok (.compare e ps, ts2)
def pCmpTail : Nat → List Tok → Except String (CmpList × List Tok)
  | 0, _ => .error "parse fuel exhausted"
  | fuel + 1, ts =>
      match ts with
      | .sym s :: rest =>
          match cmpOfSym s with
          | some op =>
              match pAdd fuel rest with
              | .error m => .error m
              | .ok (e, ts1) =>
                  match pCmpTail fuel ts1 with
                  | .error m => .error m
                  | .ok (ps, ts2) => .ok (.cons op e ps, ts2)
          | Option.none => .ok (.nil, ts)
      | _ => .ok (.nil, ts)
/-- `Additive := Multiplic ( ("+"|"-") Multiplic )*`, left-associative. -/
def pAdd : Nat → List Tok → Except String (Expr × List Tok)
  | 0, _ => .error "parse fuel exhausted"
  | fuel + 1, ts =>
      match pMul fuel ts with
      | .error m => .error m
      | .ok (e, ts1) => pAddTail fuel e ts1
def pAddTail : Nat → Expr → List Tok → Except String (Expr × List Tok)
  | 0, _, _ => .error "parse fuel exhausted"
  | fuel + 1, acc, ts =>
      match ts with
      | .sym s :: rest =>
          match addOfSym s with
          | some op =>
              match pMul fuel rest with
              | .error m => .error m
              | .ok (r, ts1) => pAddTail fuel (.binOp acc op r) ts1
          | Option.none => .ok (acc, ts)
      | _ => .ok (acc, ts)
/-- `Multiplic := Unary ( ("*"|"/"|"//"|"%") Unary )*`, left-associative. -/
def pMul : Nat → List Tok → Except String (Expr × List Tok)
  | 0, _ => .error "parse fuel exhausted"
  | fuel + 1, ts =>
      match pUnary fuel ts with
      | .error m => .error m
      | .ok (e, ts1) => pMulTail fuel e ts1
def pMulTail : Nat → Expr → List Tok → Except String (Expr × List Tok)
  | 0, _, _ => .error "parse fuel exhausted"
  | fuel + 1, acc, ts =>
      match ts with
      | .sym s :: rest =>
          match mulOfSym s with
          | some op =>
              match pUnary fuel rest with
              | .error m => .error m
              | .ok (r, ts1) => pMulTail fuel (.binOp acc op r) ts1
          | Option.none => .ok (acc, ts)
      | _ => .ok (acc, ts)
/-- `Unary := ("+"|"-") Unary | Power`. -/
def pUnary : Nat → List Tok → Except String (Expr × List Tok)
  | 0, _ => .error "parse fuel exhausted"
  | fuel + 1, ts =>
      match ts with
      | .sym "+" :: rest =>
          match pUnary fuel rest with
          | .error m => .error m
          | .ok (e, ts1) => .ok (.unaryOp .uadd e, ts1)
      | .sym "-" :: rest =>
          match pUnary fuel rest with
          | .error m => .error m
          | .ok (e, ts1) => .ok (.unaryOp .usub e, ts1)
      | _ => pPow fuel ts
/-- `Power := Primary ( "**" Unary )?` — right-associative via the Unary
right operand. -/
def pPow : Nat → List Tok → Except String (Expr × List Tok)
  | 0, _ => .error "parse fuel exhausted"
  | fuel + 1, ts =>
      match pPrimary fuel ts with
      | .error m => .error m
      | .ok (base, ts1) =>
          match ts1 with
          | .sym "**" :: rest =>
              match pUnary fuel rest with
              | .error m => .error m
              | .ok (e, ts2) => .ok (.binOp base .pow e, ts2)
          | _ => .ok (base, ts1)
/-- `Primary := Number | Identifier "(" ArgList? ")" | Identifier |
"(" Expr ")" | "[" ArgList? "]" | "(" Expr "," ArgList? ")"`.  The
identifiers True/False/None are the host constant literals; the keywords
and/or/not cannot start a primary. -/
def pPrimary : Nat → List Tok → Except String (Expr × List Tok)
  | 0, _ => .error "parse fuel exhausted"
  | fuel + 1, ts =>
      match ts with
      | .num q :: rest => .ok (.constant (.num q), rest)
      | .ident id :: rest =>
          if id == "and" || id == "or" || id == "not" then
            .error "keyword cannot start an expression"
          else if id == "True" then .ok (.constant (.bool true), rest)
          else if id == "False" then .ok (.constant (.bool false), rest)
          else if id == "None" then .ok (.constant PyVal.none, rest)
          else
            match rest with
            | .sym "(" :: .sym ")" :: rest2 => .ok (.call (.name id) .nil .nil, rest2)
            | .sym "(" :: rest2 =>
                match pArgs fuel rest2 with
                | .error m => .error m
                | .ok (args, ts1) =>
                    match ts1 with
                    | .sym ")" :: rest3 => .ok (.call (.name id) args .nil, rest3)
                    | _ => .error "expected closing parenthesis"
            | _ => .ok (.name id, rest)
      | .sym "(" :: rest =>
          match pOr fuel rest with
          | .error m => .error m
          | .ok (e, ts1) =>
              match ts1 with
              | .sym ")" :: rest2 => .ok (e, rest2)
              | .sym "," :: .sym ")" :: rest2 => .ok (.tupleLit (.cons e .nil), rest2)
              | .sym "," :: rest2 =>
                  match pArgs fuel rest2 with
                  | .error m => .error m
                  | .ok (args, ts2) =>
                      match ts2 with
                      | .sym ")" :: rest3 => .ok (.tupleLit (.cons e args), rest3)
                      | _ => .error "expected closing parenthesis"
              | _ => .error "expected closing parenthesis or comma"
      | .sym "[" :: .sym "]" :: rest => .ok (.listLit .nil, rest)
      | .sym "[" :: rest =>
          match pArgs fuel rest with
          | .error m => .error m
          | .ok (args, ts1) =>
              match ts1 with
              | .sym "]" :: rest2 => .ok (.listLit args, rest2)
              | _ => .error "expected closing bracket"
      | _ => .error "unexpected token"
/-- `ArgList := Expr ( "," Expr )*`. -/
def pArgs : Nat → List Tok → Except String (ExprList × List Tok)
  | 0, _ => .error "parse fuel exhausted"
  | fuel + 1, ts =>
      match pOr fuel ts with
      | .error m => .error m
      | .ok (e, ts1) =>
          match ts1 with
          | .sym "," :: rest =>
              match pArgs fuel rest with
              | .error m => .error m
              | .ok (es, ts2) => .ok (.cons e es, ts2)
          | _ => .ok (.cons e .nil, ts1)
end

/-- Modelled from the spec (section 4.2): tokenize and parse a whole
input; trailing unconsumed tokens are a syntax error. -/
def parseExpr (s : String) : Except String Expr :=
  match lex s with
  | .error m => .error m
  | .ok ts =>
      match pOr (32 * (ts.length + 2)) ts with
      | .error m => .error m
      | .ok (e, []) => .ok e
      | .ok (_, _ :: _) => .error "trailing tokens after expression"

/-- `expression.replace(" ", "")`: every space character is removed (the
pattern is the single character U+0020, so the substring replace is a
character filter). -/
def pyStripSpaces (s : String) : String := ⟨s.data.filter (fun c => !(c == ' '))⟩

/-- `expression.replace("^", "**")`: each caret becomes a double star. -/
def pyCaretToPow (s : String) : String :=
  ⟨s.data.foldr (fun c acc => if c == '^' then '*' :: '*' :: acc else c :: acc) []⟩

/-- The shared pipeline of `calculate` and `evaluate_for_x`: preprocess,
parse, build the tables, evaluate.  A parse failure is the host
SyntaxError, represented as the `parseErr` exception. -/
def runPipeline (mode : String) (F : FloatFns) (extra : List (String × PyVal))
    (expression : String) : Except PyExc PyVal :=
  match parseExpr (pyCaretToPow (pyStripSpaces expression)) with
  | .error m => .error (.parseErr m)
  | .ok node => visit F (prepare_functions mode F) (prepare_names F extra) node

/-- `CalculatorEngine.calculate`: the pipeline with no extra bindings and
the source's except-chain.  An `EvalError e` becomes the string
`"Error: " ++ e`; a bare ZeroDivisionError would become
`"Division by zero"` (this handler is unreachable because `visit_BinOp`
converts every ZeroDivisionError into an EvalError first); any other
exception — in particular the host SyntaxError and the TypeErrors that
escape `visit_UnaryOp`/`visit_Compare` uncaught — becomes the bare
string `"Error"`. -/
def calculate (mode : String) (F : FloatFns) (expression : String) : PyVal :=
  match runPipeline mode F [] expression with
  | .ok result => result
  | .error (.evalError m) => .str ("Error: " ++ m)
  | .error (.zeroDivision _) => .str "Division by zero"
  | .error _ => .str "Error"

/-- `CalculatorEngine.evaluate_for_x`: the same pipeline with `x` bound;
every failure of any kind returns Python None (`PyVal.none`). -/
def evaluate_for_x (mode : String) (F : FloatFns) (expression : String) (x_value : Q) : PyVal :=
  match runPipeline mode F [("x", .num x_value)] expression with
  | .ok result => result
  | .error _ => PyVal.none

/-- math.radians over the reals: `x * pi / 180` (the float computation
idealised exactly, for verifying the trig layer). -/
noncomputable def math_radians (x : ℝ) : ℝ := x * Real.pi / 180

mutual
/-- Modelled from the spec: the closed Value type of section 3 — number,
boolean, string, ordered sequence of Value, or tuple of Value (and
nothing else). -/
def isClosedValue : PyVal → Bool
  | .num _ => true
  | .bool _ => true
  | .str _ => true
  | .list es => isClosedValueList es
  | .tuple es => isClosedValueList es
  | .exc _ => false
  | .none => false
def isClosedValueList : PyValList → Bool
  | .nil => true
  | .cons v rest => isClosedValue v && isClosedValueList rest
end

/-- The mathematical meaning of one supported comparison operator on
numbers. -/
def cmpQ : CmpOp → Q → Q → Bool
  | .eq, a, b => decide (a = b)
  | .ne, a, b => !decide (a = b)
  | .lt, a, b => decide (a < b)
  | .le, a, b => decide (a ≤ b)
  | .gt, a, b => decide (b < a)
  | .ge, a, b => decide (b ≤ a)
  | .otherC, _, _ => false

/-- Modelled from the spec: the logical AND of the adjacent pairwise
comparisons of a chain (`a<b<c` means `(a<b) and (b<c)`). -/
def chainAnd : Q → List (CmpOp × Q) → Bool
  | _, [] => true
  | prev, (op, q) :: rest => cmpQ op prev q && chainAnd q rest

/-- A numeric comparison chain as an ast.Compare pair list whose
comparators are number literals. -/
def numPairs : List (CmpOp × Q) → CmpList
  | [] => .nil
  | (op, q) :: rest => .cons op (.constant (.num q)) (numPairs rest)

/-- `EvalList F funcs names es vs`: every operand of `es` evaluates
successfully, to the values `vs` in order. -/
inductive EvalList (F : FloatFns) (funcs : List (String × FuncImpl))
    (names : List (String × PyVal)) : ExprList → PyValList → Prop where
  | nil : EvalList F funcs names .nil .nil
  | cons {e : Expr} {v : PyVal} {es : ExprList} {vs : PyValList} :
      visit F funcs names e = .ok v →
      EvalList F funcs names es vs →
      EvalList F funcs names (.cons e es) (.cons v vs)

/-- Helper for C6: on two number operands, every supported comparison
operator agrees with its mathematical meaning. -/
theorem pyCompare_on_numbers (op : CmpOp) (h : op ≠ CmpOp.otherC) (a b : Q) :
    pyCompare op (.num a) (.num b) = .ok (cmpQ op a b) := by
  cases op
  case otherC => exact absurd rfl h
  all_goals rfl

/-- Helper for C6: the `visit_Compare` loop on a numeric chain computes
the AND of the pairwise comparisons, with the accumulator threaded
through. -/
theorem visitCmp_num_chain (F : FloatFns) (funcs : List (String × FuncImpl))
    (names : List (String × PyVal)) :
    ∀ (pairs : List (CmpOp × Q)), (∀ p ∈ pairs, p.1 ≠ CmpOp.otherC) →
      ∀ (prev : Q) (res : Bool),
        visitCmp F funcs names (.num prev) res (numPairs pairs) =
          .ok (res && chainAnd prev pairs) := by
  intro pairs
  induction pairs with
  | nil =>
      intro _ prev res
      simp [visitCmp, numPairs, chainAnd]
  | cons p rest ih =>
      rcases p with ⟨op, q⟩
      intro h prev res
      have hop : op ≠ CmpOp.otherC := h (op, q) (by simp)
      have hrest : ∀ p ∈ rest, p.1 ≠ CmpOp.otherC := fun p hp => h p (by simp [hp])
      have hcmp := pyCompare_on_numbers op hop prev q
      cases op
      case otherC => exact absurd rfl hop
      all_goals
        simp only [numPairs, visitCmp, visit, chainAnd]
        cases res
        · simp only [Bool.false_eq_true, if_false, Bool.false_and]
          rw [ih hrest q false]
          simp
        · simp only [if_true, hcmp]
          rw [ih hrest q (cmpQ _ prev q)]
          simp [Bool.true_and]

/-- C1: `calculate` does return normally on `"mean()"`, but its result is
the `EvalError("mean() needs args")` exception object itself — the mean
lambda returns the constructed exception rather than raising it — which
is not a member of the closed Value type (number, boolean, string,
sequence, tuple), refuting the claim that every result is a closed Value
or an error string. -/
theorem c1_mean_no_args_returns_exception_object :
    calculate "deg" defaultFloatFns "mean()" = PyVal.exc "mean() needs args" ∧
    isClosedValue (PyVal.exc "mean() needs args") = false :=
  ⟨rfl, rfl⟩

/-- C3 counterexample: `calculate("1/0")` does not return the literal
string `"Division by zero"` (it returns `"Error: Division by zero"`,
because `visit_BinOp` converts the ZeroDivisionError into an EvalError,
whose facade handler prefixes `"Error: "`). -/
theorem c3_counterexample_not_bare_string :
    calculate "deg" defaultFloatFns "1/0" ≠ PyVal.str "Division by zero" := by
  have h0 : calculate "deg" defaultFloatFns "1/0" = PyVal.str "Error: Division by zero" := rfl
  rw [h0]
  intro h
  exact PyVal.noConfusion h (fun hs => absurd hs (by decide))

/-- C3 amended: division and modulo by zero fail closed — `calculate`
returns the division-by-zero error string `"Error: Division by zero"`
(the EvalError path of the facade), never an unhandled fault. -/
theorem c3_division_by_zero_error_string :
    calculate "deg" defaultFloatFns "1/0" = PyVal.str "Error: Division by zero" ∧
    calculate "deg" defaultFloatFns "5%0" = PyVal.str "Error: Division by zero" ∧
    calculate "deg" defaultFloatFns "7//0" = PyVal.str "Error: Division by zero" :=
  ⟨rfl, rfl, rfl⟩

/-- C4: arithmetic without calls follows the grammar's precedence, with
left-associative binary operators except the right-associative power, and
with `^` meaning power: `2+3*4 = 14`, `2^3^2 = 2^(3^2) = 512`,
`2-3-4 = (2-3)-4 = -5`, `20/2/5 = (20/2)/5 = 2`; the parse of
`"2^3^2"` (after the caret substitution) is literally the right-nested
power tree. -/
theorem c4_precedence_and_power_associativity (F : FloatFns) :
    calculate "deg" F "2+3*4" = PyVal.num 14 ∧
    calculate "deg" F "2^3^2" = PyVal.num 512 ∧
    calculate "deg" F "2-3-4" = PyVal.num (-5) ∧
    calculate "deg" F "20/2/5" = PyVal.num 2 ∧
    parseExpr (pyCaretToPow "2^3^2") =
      .ok (.binOp (.constant (.num 2)) .pow
            (.binOp (.constant (.num 3)) .pow (.constant (.num 2)))) ∧
    parseExpr "2-3-4" =
      .ok (.binOp (.binOp (.constant (.num 2)) .sub (.constant (.num 3))) .sub
            (.constant (.num 4))) :=
  ⟨rfl, rfl, rfl, rfl, rfl, rfl⟩

/-- C10: on the supported host library (Python 3.8+), statistics.mode
returns the first of the equally-common values instead of raising
StatisticsError, so `calculate("mode(1,1,2,2)")` returns the number 1 —
not the sentinel string `"No unique mode"` the claim (and the except
handler in `_safe_mode`) expect for a tie. -/
theorem c10_mode_tie_returns_first_mode :
    calculate "deg" defaultFloatFns "mode(1,1,2,2)" = PyVal.num 1 ∧
    PyVal.num 1 ≠ PyVal.str "No unique mode" :=
  ⟨rfl, fun h => PyVal.noConfusion h⟩

/-- C5: the `_angle_wrapper` layer.  In degree mode the single argument is
converted with math.radians before the underlying trig function; in
radian mode it passes through — so degree-mode trig(x) equals radian-mode
trig(radians(x)) for every trig function and argument, both over the
abstract float parameters of the pipeline and over the reals.
Consequently (exactly, in the real idealisation of float arithmetic)
sin(30) in degree mode is 1/2 and sin(pi/2) in radian mode is 1. -/
theorem c5_trig_angle_mode_consistency :
    (∀ (f : ℝ → ℝ) (x : ℝ),
      angle_wrapper "deg" math_radians f x = angle_wrapper "rad" math_radians f (math_radians x)) ∧
    (∀ (F : FloatFns) (f : Q → Q) (x : Q),
      angle_wrapper "deg" F.radians f x = angle_wrapper "rad" F.radians f (F.radians x)) ∧
    angle_wrapper "deg" math_radians Real.sin 30 = 1 / 2 ∧
    angle_wrapper "rad" math_radians Real.sin (Real.pi / 2) = 1 := by
  refine ⟨fun f x => rfl, fun F f x => rfl, ?_, ?_⟩
  · show Real.sin (math_radians 30) = 1 / 2
    have h : math_radians 30 = Real.pi / 6 := by
      unfold math_radians; ring
    rw [h, Real.sin_pi_div_six]
  · show Real.sin (Real.pi / 2) = 1
    exact Real.sin_pi_div_two

/-- C2 counterexample: a parse containing a string literal — a construct
outside the section 4.2 grammar — is not rejected: `visit_Constant`
returns any constant value, so evaluation silently yields the string
value instead of failing with an EvalError. -/
theorem c2_counterexample_string_literal_silently_evaluates :
    visit defaultFloatFns (prepare_functions "deg" defaultFloatFns)
      (prepare_names defaultFloatFns []) (.constant (.str "abc")) = .ok (.str "abc") :=
  rfl

/-- C2 amended: node kinds with no visitor (attribute access, subscripts,
lambdas — the `other` constructor) fail closed through `generic_visit`
with an EvalError, and a call whose callee is not a plain identifier is
rejected; but keyword arguments are silently discarded (the result of a
call never depends on them), and string constants evaluate silently. -/
theorem c2_out_of_grammar_fails_closed :
    (∀ (F : FloatFns) (funcs : List (String × FuncImpl)) (names : List (String × PyVal))
       (cls : String),
      visit F funcs names (.other cls) =
        .error (.evalError ("Unsupported expression: " ++ cls))) ∧
    (∀ (F : FloatFns) (funcs : List (String × FuncImpl)) (names : List (String × PyVal))
       (f : Expr) (args : ExprList) (kws : KwList), (∀ id, f ≠ Expr.name id) →
      visit F funcs names (.call f args kws) =
        .error (.evalError "Only direct function calls allowed")) ∧
    (∀ (F : FloatFns) (funcs : List (String × FuncImpl)) (names : List (String × PyVal))
       (f : Expr) (args : ExprList) (kws kws2 : KwList),
      visit F funcs names (.call f args kws) = visit F funcs names (.call f args kws2)) := by
  refine ⟨fun F funcs names cls => rfl, ?_, ?_⟩
  · intro F funcs names f args kws h
    cases f with
    | name id => exact absurd rfl (h id)
    | constant v => rfl
    | unaryOp op e => rfl
    | binOp l op r => rfl
    | boolOp op es => rfl
    | compare first pairs => rfl
    | call g as ks => rfl
    | listLit es => rfl
    | tupleLit es => rfl
    | other cls => rfl
  · intro F funcs names f args kws kws2
    cases f <;> rfl

/-- C2 witness: the rejection theorem applied to a call whose callee is
the constant 1. -/
theorem c2_witness :
    visit defaultFloatFns (prepare_functions "deg" defaultFloatFns)
      (prepare_names defaultFloatFns [])
      (.call (.constant (.num 1)) .nil .nil) =
      .error (.evalError "Only direct function calls allowed") :=
  c2_out_of_grammar_fails_closed.2.1 defaultFloatFns _ _ (.constant (.num 1)) .nil .nil
    (fun _ h => Expr.noConfusion h)

/-- C6: a chained comparison over numbers evaluates to the logical AND of
the adjacent pairwise comparisons (every comparator operand is evaluated,
on the left-to-right pass of `visit_Compare`); concretely `1<2<3` is
boolean true, `3<2<1` boolean false, and a failing later comparator is
still evaluated even though the first pair already failed:
`3<2<1/0` fails with division by zero rather than returning false. -/
theorem c6_chained_comparison_is_pairwise_and :
    (∀ (F : FloatFns) (funcs : List (String × FuncImpl)) (names : List (String × PyVal))
       (q0 : Q) (pairs : List (CmpOp × Q)), (∀ p ∈ pairs, p.1 ≠ CmpOp.otherC) →
      visit F funcs names (.compare (.constant (.num q0)) (numPairs pairs)) =
        .ok (.bool (chainAnd q0 pairs))) ∧
    calculate "deg" defaultFloatFns "1<2<3" = PyVal.bool true ∧
    calculate "deg" defaultFloatFns "3<2<1" = PyVal.bool false ∧
    calculate "deg" defaultFloatFns "3<2<1/0" = PyVal.str "Error: Division by zero" := by
  refine ⟨?_, rfl, rfl, rfl⟩
  intro F funcs names q0 pairs h
  simp only [visit]
  rw [visitCmp_num_chain F funcs names pairs h q0 true]
  simp

/-- C6 witness: the general pairwise-AND theorem applied to the chain
`1 < 2 < 3`. -/
theorem c6_witness :
    visit defaultFloatFns (prepare_functions "deg" defaultFloatFns)
      (prepare_names defaultFloatFns [])
      (.compare (.constant (.num 1)) (numPairs [(CmpOp.lt, 2), (CmpOp.lt, 3)])) =
      .ok (.bool (chainAnd 1 [(CmpOp.lt, 2), (CmpOp.lt, 3)])) :=
  c6_chained_comparison_is_pairwise_and.1 defaultFloatFns _ _ 1
    [(CmpOp.lt, 2), (CmpOp.lt, 3)] (by decide)

/-- Helper for C7: successful operand evaluations determine the result of
the list pass. -/
theorem visitList_of_evalList {F : FloatFns} {funcs : List (String × FuncImpl)}
    {names : List (String × PyVal)} :
    ∀ {es : ExprList} {vs : PyValList}, EvalList F funcs names es vs →
      visitList F funcs names es = .ok vs := by
  intro es vs h
  induction h with
  | nil => rfl
  | cons he _ ih => simp [visitList, he, ih]

/-- C7 counterexample: the claim's example `"0 and 1/0"` does not fail
with division by zero at the facade — space removal produces `"0and1/0"`,
whose `and1` lexes as a single identifier, so the input is a syntax error
and `calculate` returns the bare string `"Error"`. -/
theorem c7_counterexample_example_is_syntax_error :
    calculate "deg" defaultFloatFns "0 and 1/0" = PyVal.str "Error" ∧
    PyVal.str "Error" ≠ PyVal.str "Error: Division by zero" :=
  ⟨rfl, fun h => PyVal.noConfusion h (fun hs => absurd hs (by decide))⟩

/-- C7 amended: `visit_BoolOp` evaluates every operand unconditionally and
reduces their truthiness with AND/OR (no short-circuiting), and a failure
raised while evaluating any operand propagates even when an earlier
operand already determines the outcome; the claim's example must be
written `"0 and (1/0)"` — the literal `"0 and 1/0"` becomes the syntax
error `"0and1/0"` after space removal. -/
theorem c7_boolop_eager_no_short_circuit :
    (∀ (F : FloatFns) (funcs : List (String × FuncImpl)) (names : List (String × PyVal))
       (es : ExprList) (vs : PyValList), EvalList F funcs names es vs →
      visit F funcs names (.boolOp .andK es) = .ok (.bool (vs.allB pyTruthy)) ∧
      visit F funcs names (.boolOp .orK es) = .ok (.bool (vs.anyB pyTruthy))) ∧
    (∀ (F : FloatFns) (funcs : List (String × FuncImpl)) (names : List (String × PyVal))
       (op : BoolKind) (es : ExprList) (exn : PyExc),
      visitList F funcs names es = .error exn →
      visit F funcs names (.boolOp op es) = .error exn) ∧
    calculate "deg" defaultFloatFns "0 and (1/0)" = PyVal.str "Error: Division by zero" := by
  refine ⟨?_, ?_, rfl⟩
  · intro F funcs names es vs h
    have hl := visitList_of_evalList h
    constructor <;> simp [visit, hl]
  · intro F funcs names op es exn h
    cases op <;> simp [visit, h]

/-- C7 witness: the eager-evaluation theorem applied to `0 and 1` (both
operands evaluated, result false) and the propagation theorem applied to
`0 and (1/0)` (the division error surfaces despite the first operand
being falsy). -/
theorem c7_witness :
    visit defaultFloatFns (prepare_functions "deg" defaultFloatFns)
      (prepare_names defaultFloatFns [])
      (.boolOp .andK (.cons (.constant (.num 0)) (.cons (.constant (.num 1)) .nil))) =
      .ok (.bool ((PyValList.cons (.num 0) (.cons (.num 1) .nil)).allB pyTruthy)) ∧
    visit defaultFloatFns (prepare_functions "deg" defaultFloatFns)
      (prepare_names defaultFloatFns [])
      (.boolOp .andK (.cons (.constant (.num 0))
        (.cons (.binOp (.constant (.num 1)) .div (.constant (.num 0))) .nil))) =
      .error (.evalError "Division by zero") :=
  ⟨(c7_boolop_eager_no_short_circuit.1 defaultFloatFns
      (prepare_functions "deg" defaultFloatFns) (prepare_names defaultFloatFns [])
      (.cons (.constant (.num 0)) (.cons (.constant (.num 1)) .nil))
      (.cons (.num 0) (.cons (.num 1) .nil))
      (EvalList.cons rfl (EvalList.cons rfl EvalList.nil))).1,
   c7_boolop_eager_no_short_circuit.2.1 defaultFloatFns _ _ .andK _ _ rfl⟩

/-- C8: whitespace between tokens is insignificant and discarded — any
two expression texts whose space characters are removed to the same
string produce the same `calculate` result (the facade deletes every
space before handing the text to the parser, to which whitespace is
insignificant). -/
theorem c8_whitespace_insignificant :
    ∀ (mode : String) (F : FloatFns) (s t : String),
      pyStripSpaces s = pyStripSpaces t → calculate mode F s = calculate mode F t := by
  intro mode F s t h
  simp only [calculate, runPipeline, h]

/-- C8 witness: `"1 + 2"` and `"1+2"` strip equally and calculate
equally. -/
theorem c8_witness :
    pyStripSpaces "1 + 2" = pyStripSpaces "1+2" ∧
    calculate "deg" defaultFloatFns "1 + 2" = calculate "deg" defaultFloatFns "1+2" :=
  ⟨rfl, c8_whitespace_insignificant "deg" defaultFloatFns "1 + 2" "1+2" rfl⟩

/-- C9: `evaluate_for_x` never lets a failure escape: whenever the shared
pipeline fails — for any reason — the result is Absent (Python None, with
no error detail), and whenever it succeeds the result is the evaluated
value with `x` bound in the name table; concretely `evaluateAt("1/x", 0)`
is Absent, a syntax error is Absent, and `evaluateAt("x+1", 2)` is 3. -/
theorem c9_evaluate_for_x_contract :
    (∀ (mode : String) (F : FloatFns) (s : String) (x : Q) (exn : PyExc),
      runPipeline mode F [("x", .num x)] s = .error exn →
      evaluate_for_x mode F s x = PyVal.none) ∧
    (∀ (mode : String) (F : FloatFns) (s : String) (x : Q) (v : PyVal),
      runPipeline mode F [("x", .num x)] s = .ok v →
      evaluate_for_x mode F s x = v) ∧
    evaluate_for_x "deg" defaultFloatFns "1/x" 0 = PyVal.none ∧
    evaluate_for_x "deg" defaultFloatFns ")(" 1 = PyVal.none ∧
    evaluate_for_x "deg" defaultFloatFns "x+1" 2 = PyVal.num 3 := by
  refine ⟨?_, ?_, rfl, rfl, rfl⟩
  · intro mode F s x exn h
    simp [evaluate_for_x, h]
  · intro mode F s x v h
    simp [evaluate_for_x, h]

/-- C9 witness: the failure clause applied to `"1/x"` at 0 (the pipeline
fails with the division EvalError) and the success clause applied to
`"x+1"` at 2. -/
theorem c9_witness :
    evaluate_for_x "deg" defaultFloatFns "1/x" 0 = PyVal.none ∧
    evaluate_for_x "deg" defaultFloatFns "x+1" 2 = PyVal.num 3 :=
  ⟨c9_evaluate_for_x_contract.1 "deg" defaultFloatFns "1/x" 0
      (.evalError "Division by zero") rfl,
   c9_evaluate_for_x_contract.2.1 "deg" defaultFloatFns "x+1" 2 (PyVal.num 3) rfl⟩
